import Mathlib

/-!
# Verification of the icebook storybook shell

Shallow embedding of the `icebook` crate (and its example consumer crate)
in Lean 4, with proofs about the specified behaviour.

Conventions of the embedding:
* Rust `String` / `&str` become Lean `String`; `Vec<T>` becomes `List T`.
* The GUI widget toolkit (layout, styling, colours, fonts) is out of scope;
  rendering functions are embedded as the ordered list of primitive widgets
  they build, keeping text content and the interaction messages attached to
  widgets, and dropping styling (colour/size values are `f32` data that no
  verified property inspects).
* Platform effects (browser window, localStorage, URL bar) are made explicit:
  environment reads become parameters, environment writes become returned
  values.
-/

namespace Icebook

/-! ## theme.rs -/

/-- Brightness mode for theme switching (`theme.rs`).  `Dark` is the
`#[default]` variant. -/
inductive Brightness where
  | Dark
  | Light
deriving DecidableEq, Repr, Inhabited

/-- Toggle between Dark and Light (`Brightness::toggle`). -/
def Brightness.toggle : Brightness → Brightness
  | .Dark => .Light
  | .Light => .Dark

/-! ## story.rs : story metadata -/

/-- Metadata for a story, used for sidebar navigation and routing
(`story.rs`, `StoryMeta`). -/
structure StoryMeta where
  id : String
  title : String
  category : String
deriving DecidableEq, Repr

/-! ## sidebar.rs : sidebar data model -/

/-- A navigation item in the sidebar (`sidebar.rs`, `NavItem`). -/
structure NavItem where
  id : String
  label : String
deriving DecidableEq, Repr

/-- A section in the sidebar containing navigation items
(`sidebar.rs`, `SidebarSection`). -/
structure SidebarSection where
  title : String
  items : List NavItem
deriving DecidableEq, Repr

/-- Configuration for the sidebar (`sidebar.rs`, `SidebarConfig`). -/
structure SidebarConfig where
  title : String
  sections : List SidebarSection
deriving DecidableEq, Repr

/-! ## app.rs : build_sidebar_config

The Rust code accumulates the stories into a
`BTreeMap<String, Vec<NavItem>>`.  We embed the map as an association list
whose keys are kept strictly sorted; `btreeInsert` is the effect of
`categories.entry(category).or_default().push(item)` on that
representation. -/

/-- `NavItem` built from a story, as in the loop body of
`build_sidebar_config`. -/
def navOf (story : StoryMeta) : NavItem :=
  { id := story.id, label := story.title }

/-- Insert into the sorted association list embedding the `BTreeMap`:
append `item` to the entry of `cat`, creating the entry (at its sorted
position) if absent. -/
def btreeInsert (cat : String) (item : NavItem) :
    List (String × List NavItem) → List (String × List NavItem)
  | [] => [(cat, [item])]
  | (k, v) :: rest =>
    if cat < k then (cat, [item]) :: (k, v) :: rest
    else if cat = k then (k, v ++ [item]) :: rest
    else (k, v) :: btreeInsert cat item rest

/-- Build sidebar configuration from story metadata
(`app.rs`, `build_sidebar_config`): group stories by category in a
`BTreeMap`, then turn the (key-sorted) entries into sections. -/
def build_sidebar_config (title : String) (stories : List StoryMeta) :
    SidebarConfig :=
  let categories :=
    stories.foldl (fun m story => btreeInsert story.category (navOf story) m) []
  { title := title
    sections := categories.map (fun p => { title := p.1, items := p.2 }) }

/-- Association-list lookup in the `BTreeMap` embedding; a missing key
reads as the empty entry (`or_default`). -/
def mapLookup (m : List (String × List NavItem)) (k : String) : List NavItem :=
  match m with
  | [] => []
  | (k', v) :: rest => if k = k' then v else mapLookup rest k

/-! ## routing.rs

The browser environment is made explicit: `get_initial_route` becomes a pure
function of the page's fragment string (`window.location.hash`), and
`set_url_hash` is split into the fragment value it writes
(`set_url_hash_fragment`); the `history.replaceState` call itself is outside
the embedding.  On native both functions are the constant no-ops, which we
model by passing `none` for the hash. -/

/-- Get the initial route from a URL hash (`routing.rs`,
`get_initial_route`, WASM branch): strip every leading `#` and then every
leading `/`, return `none` for an empty remainder, else the lower-cased
route (`str::to_lowercase`, modelled per character). -/
def get_initial_route (hash : String) : Option String :=
  let route := (hash.data.dropWhile (· == '#')).dropWhile (· == '/')
  if route.isEmpty then none else some (String.mk (route.map Char.toLower))

/-- The fragment value written by `set_url_hash` (`routing.rs`, WASM
branch): empty for an empty id or the id `"welcome"`, else `#/<story-id>`.
The write itself uses `history.replaceState`. -/
def set_url_hash_fragment (story_id : String) : String :=
  if story_id = "" ∨ story_id = "welcome" then "" else "#/" ++ story_id

/-! ## preferences.rs -/

/-- User preferences for the storybook (`preferences.rs`). -/
structure Preferences where
  brightness : Brightness
deriving DecidableEq, Repr

/-- Set the brightness preference (`Preferences::set_brightness`). -/
def Preferences.set_brightness (p : Preferences) (b : Brightness) :
    Preferences :=
  { p with brightness := b }

/-- Initial brightness (`preferences.rs`, `get_initial_brightness`):
saved preference if any, else the system/browser colour-scheme signal,
whose own fallback is `Dark`.  Both environment reads are parameters. -/
def get_initial_brightness (saved : Option Brightness)
    (system : Brightness) : Brightness :=
  match saved with
  | some b => b
  | none => system

/-! ## story.rs / app.rs : the generic shell

`StoryRegistry` is a trait; the shell `Storybook<S>` is generic over it.  We
embed the trait as a structure of the registry data the shell consumes:
its story list and title (static items), its `Default` state, and its
`update` dispatch.  `σ` is the registry's state type and `μ` its combined
message type. -/

/-- The registry interface consumed by the shell (`story.rs`,
`StoryRegistry`). `title` and `welcome_id` carry the trait's default
values. -/
structure StoryRegistry (σ : Type) (μ : Type) where
  stories : List StoryMeta
  title : String := "icebook"
  welcome_id : String := "welcome"
  default : σ
  update : σ → String → μ → σ

/-- Messages for the Storybook application (`app.rs`, `Message<M>`). -/
inductive Message (μ : Type) where
  | Story (m : μ)
  | ToggleBrightness
  | SelectStory (id : String)
  | SearchChanged (q : String)
deriving DecidableEq, Repr

/-- The main Storybook application state (`app.rs`, `Storybook<S>`). -/
structure Storybook (σ : Type) where
  stories : σ
  selected : String
  brightness : Brightness
  preferences : Preferences
  sidebar_config : SidebarConfig
  search_query : String

/-- Initial selection resolution inside `Storybook::new`:
`get_initial_route().filter(registered).or_else(first story).unwrap_or_default()`. -/
def resolveSelected (route : Option String) (story_list : List StoryMeta) :
    String :=
  ((route.filter fun id => story_list.any fun s => s.id == id).or
      (story_list.head?.map fun s => s.id)).getD ""

/-- Create a new Storybook (`app.rs`, `Storybook::new`).  Environment
reads become the parameters `loaded` (result of `Preferences::load`) and
`rawHash` (the page fragment, `none` on native).  The second component of
the result is the story id passed to `routing::set_url_hash` (the returned
`Task::none()` is elided). -/
def Storybook.new {σ μ : Type} (R : StoryRegistry σ μ)
    (loaded : Preferences) (rawHash : Option String) :
    Storybook σ × String :=
  let story_list := R.stories
  let sidebar_config := build_sidebar_config R.title story_list
  let selected := resolveSelected (rawHash.bind get_initial_route) story_list
  (⟨R.default, selected, loaded.brightness, loaded, sidebar_config, ""⟩,
    selected)

/-- Update the application state (`app.rs`, `Storybook::update`).  The
second component of the result is the story id passed to
`routing::set_url_hash`, when any; the `preferences.save()` and
`Task::none()` calls have no state-level content and are elided. -/
def Storybook.update {σ μ : Type} (R : StoryRegistry σ μ)
    (st : Storybook σ) : Message μ → Storybook σ × Option String
  | .Story m => ({ st with stories := R.update st.stories st.selected m }, none)
  | .ToggleBrightness =>
      let b := st.brightness.toggle
      ({ st with brightness := b, preferences := st.preferences.set_brightness b },
        none)
  | .SelectStory id => ({ st with selected := id }, some id)
  | .SearchChanged query => ({ st with search_query := query }, none)

/-- Run the shell's update loop over a list of messages, in order. -/
def Storybook.run {σ μ : Type} (R : StoryRegistry σ μ)
    (st : Storybook σ) : List (Message μ) → Storybook σ
  | [] => st
  | msg :: rest => Storybook.run R (Storybook.update R st msg).1 rest

/-- A shell message whose `SelectStory` payload (if any) is either empty or
a registered story id — the only `SelectStory` messages the built-in
sidebar can produce. -/
def selectOk {μ : Type} (stories : List StoryMeta) : Message μ → Bool
  | .SelectStory id => id == "" || stories.any (fun s => s.id == id)
  | _ => true

/-! ## Rendering model

`iced::Element` trees are linearized into the ordered list of primitive
widgets a render function builds (text nodes, pressable buttons, text
inputs, spacers).  Styling (colours, fonts, sizes, padding) is `f32`
toolkit data outside the embedding; message wiring and text content are
kept. -/

/-- A primitive widget carrying its interaction messages. -/
inductive Widget (μ : Type) where
  | text (s : String)
  | button (label : String) (onPress : μ)
  | input (placeholder value : String) (onInput : String → μ)
  | space

/-- `Element::map`: rewrap the messages produced by a subtree. -/
def Widget.map {μ ν : Type} (f : μ → ν) : Widget μ → Widget ν
  | .text s => .text s
  | .button label m => .button label (f m)
  | .input p v g => .input p v (fun s => f (g s))
  | .space => .space

/-- The messages that pressing buttons in a widget list can emit. -/
def emits {μ : Type} : List (Widget μ) → List μ
  | [] => []
  | .button _ m :: rest => m :: emits rest
  | _ :: rest => emits rest

/-- Whether a widget is a text input. -/
def isInput {μ : Type} : Widget μ → Bool
  | .input _ _ _ => true
  | _ => false

/-! ## sidebar.rs : the built-in sidebar render function -/

/-- Messages from sidebar interactions (`sidebar.rs`, `SidebarMessage`).
As shipped, the enum has exactly these two constructors — there is no
`SearchChanged` variant (`app.rs` nevertheless pattern-matches one; see the
C7 analysis). -/
inductive SidebarMessage where
  | ToggleBrightness
  | SelectStory (id : String)
deriving DecidableEq, Repr

/-- Section header widget (`sidebar.rs`, `section_header`; colour/font
arguments elided). -/
def section_header (label : String) : Widget SidebarMessage :=
  .text label

/-- Navigation item widget (`sidebar.rs`, `nav_item`): a button emitting
`SelectStory(id)`.  The `selected` argument only drives styling
(`is_selected` colours), which is elided. -/
def nav_item (id label : String) (selected : String) : Widget SidebarMessage :=
  .button label (SidebarMessage.SelectStory id)

/-- The component list built by the `for (i, section)` loop in `sidebar`:
spacing before every section but the first, then the section header, then
its nav items in stored order. -/
def sectionsWidgets (selected : String) :
    List SidebarSection → Nat → List (Widget SidebarMessage)
  | [], _ => []
  | sec :: rest, i =>
      ((if i > 0 then [Widget.space] else []) ++
        (section_header sec.title ::
          sec.items.map fun it => nav_item it.id it.label selected)) ++
      sectionsWidgets selected rest (i + 1)

/-- Render the sidebar with component navigation (`sidebar.rs`,
`sidebar`): title, spacer, theme-toggle button, spacer, then the grouped
component list.  The theme argument (styling only) is elided. -/
def sidebar (config : SidebarConfig) (selected : String) :
    List (Widget SidebarMessage) :=
  [Widget.text config.title, Widget.space,
    Widget.button "Toggle Theme" SidebarMessage.ToggleBrightness,
    Widget.space] ++
  sectionsWidgets selected config.sections 0

end Icebook

/-! ## The example consumer crate (`crates/icebook-example/src/main.rs`) -/

namespace IcebookExample

open Icebook

/-- Colour values (`iced::Color`, `f32` RGBA) are styling data that no
verified property inspects; modelled as an empty token. -/
structure Color where
deriving DecidableEq, Repr

/-- Simple theme for the example (`main.rs`, `SimpleTheme`). -/
structure SimpleTheme where
  background : Color
  text : Color
  primary : Color
deriving DecidableEq, Repr

/-- Button story state (`main.rs`, `ButtonStory`); `usize` becomes `Nat`. -/
structure ButtonStory where
  click_count : Nat
deriving DecidableEq, Repr

/-- `main.rs`, `ButtonMessage`. -/
inductive ButtonMessage where
  | Clicked
deriving DecidableEq, Repr

/-- `ButtonStory::meta`. -/
def ButtonStory.meta : StoryMeta :=
  { id := "buttons", title := "Buttons", category := "Components" }

/-- `ButtonStory::update`. -/
def ButtonStory.update (st : ButtonStory) : ButtonMessage → ButtonStory
  | .Clicked => { st with click_count := st.click_count + 1 }

/-- `ButtonStory::view`: heading, click counter, and two buttons that both
emit `Clicked`. -/
def ButtonStory.view (st : ButtonStory) (_theme : SimpleTheme) :
    List (Widget ButtonMessage) :=
  [ .text "Button Story",
    .text ("Click count: " ++ toString st.click_count),
    .button "Click me!" .Clicked,
    .button "Primary Button" .Clicked ]

/-- Input story state (`main.rs`, `InputStory`). -/
structure InputStory where
  text_value : String
deriving DecidableEq, Repr

/-- `main.rs`, `InputMessage`. -/
inductive InputMessage where
  | TextChanged (value : String)
deriving DecidableEq, Repr

/-- `InputStory::meta`. -/
def InputStory.meta : StoryMeta :=
  { id := "inputs", title := "Inputs", category := "Components" }

/-- `InputStory::update`. -/
def InputStory.update (st : InputStory) : InputMessage → InputStory
  | .TextChanged value => { st with text_value := value }

/-- `InputStory::view`. -/
def InputStory.view (st : InputStory) (_theme : SimpleTheme) :
    List (Widget InputMessage) :=
  [ .text "Input Story",
    .text "Enter some text:",
    .input "Placeholder..." st.text_value InputMessage.TextChanged,
    .text ("You typed: " ++ st.text_value) ]

/-- Typography story state (`main.rs`, `TypographyStory`, a unit struct). -/
structure TypographyStory where
deriving DecidableEq, Repr

/-- `main.rs`, `TypographyMessage` (an empty enum). -/
inductive TypographyMessage where
deriving DecidableEq

/-- `TypographyStory::meta`. -/
def TypographyStory.meta : StoryMeta :=
  { id := "typography", title := "Typography", category := "Foundation" }

/-- `TypographyStory::update` (ignores its message). -/
def TypographyStory.update (st : TypographyStory)
    (_message : TypographyMessage) : TypographyStory :=
  st

/-- `TypographyStory::view`. -/
def TypographyStory.view (_st : TypographyStory) (_theme : SimpleTheme) :
    List (Widget TypographyMessage) :=
  [ .text "Typography Story",
    .text "Heading 1",
    .text "Heading 2",
    .text "Heading 3",
    .text "Body text - The quick brown fox jumps over the lazy dog.",
    .text "Caption text" ]

/-- Colors story state (`main.rs`, `ColorsStory`, a unit struct). -/
structure ColorsStory where
deriving DecidableEq, Repr

/-- `main.rs`, `ColorsMessage` (an empty enum). -/
inductive ColorsMessage where
deriving DecidableEq

/-- `ColorsStory::meta`. -/
def ColorsStory.meta : StoryMeta :=
  { id := "colors", title := "Colors", category := "Foundation" }

/-- `ColorsStory::update` (ignores its message). -/
def ColorsStory.update (st : ColorsStory) (_message : ColorsMessage) :
    ColorsStory :=
  st

/-- `ColorsStory::color_swatch`: a coloured box (empty text in the
container) next to the swatch name; the colour arguments are elided. -/
def ColorsStory.color_swatch (name : String) : List (Widget ColorsMessage) :=
  [ .text "", .text name ]

/-- `ColorsStory::view`. -/
def ColorsStory.view (_st : ColorsStory) (_theme : SimpleTheme) :
    List (Widget ColorsMessage) :=
  [ Widget.text "Colors Story" ] ++
  ColorsStory.color_swatch "Background" ++
  ColorsStory.color_swatch "Text" ++
  ColorsStory.color_swatch "Primary" ++
  ColorsStory.color_swatch "Success" ++
  ColorsStory.color_swatch "Error" ++
  ColorsStory.color_swatch "Warning"

/-- `main.rs`, `ExampleMessage`: the registry's combined message type. -/
inductive ExampleMessage where
  | Button (m : ButtonMessage)
  | Input (m : InputMessage)
  | Typography (m : TypographyMessage)
  | Colors (m : ColorsMessage)
deriving DecidableEq

/-- The story a combined message is tagged for (the wrapping variant's
story id). -/
def ExampleMessage.tag : ExampleMessage → String
  | .Button _ => "buttons"
  | .Input _ => "inputs"
  | .Typography _ => "typography"
  | .Colors _ => "colors"

/-- `main.rs`, `ExampleStories`: the registry state. -/
structure ExampleStories where
  buttons : ButtonStory
  inputs : InputStory
  typography : TypographyStory
  colors : ColorsStory
deriving DecidableEq, Repr

/-- `#[derive(Default)]` for `ExampleStories`. -/
def ExampleStories.default : ExampleStories :=
  { buttons := { click_count := 0 }
    inputs := { text_value := "" }
    typography := {}
    colors := {} }

/-- `ExampleStories::stories`. -/
def ExampleStories.stories : List StoryMeta :=
  [ ButtonStory.meta, InputStory.meta, TypographyStory.meta,
    ColorsStory.meta ]

/-- `ExampleStories::title`. -/
def ExampleStories.title : String := "Example Storybook"

/-- `ExampleStories::update`: route a message to the story matching
`story_id`; unmatched pairs fall through to the `_ => {}` arm. -/
def ExampleStories.update (st : ExampleStories) (story_id : String)
    (message : ExampleMessage) : ExampleStories :=
  match story_id, message with
  | "buttons", .Button m => { st with buttons := st.buttons.update m }
  | "inputs", .Input m => { st with inputs := st.inputs.update m }
  | "typography", .Typography m =>
      { st with typography := st.typography.update m }
  | "colors", .Colors m => { st with colors := st.colors.update m }
  | _, _ => st

/-- `ExampleStories::view`: render the story matching `story_id`,
wrapping its messages; unmatched ids render the `"Story not found"`
text. -/
def ExampleStories.view (st : ExampleStories) (story_id : String)
    (theme : SimpleTheme) : List (Widget ExampleMessage) :=
  match story_id with
  | "buttons" => (st.buttons.view theme).map (Widget.map ExampleMessage.Button)
  | "inputs" => (st.inputs.view theme).map (Widget.map ExampleMessage.Input)
  | "typography" =>
      (st.typography.view theme).map (Widget.map ExampleMessage.Typography)
  | "colors" => (st.colors.view theme).map (Widget.map ExampleMessage.Colors)
  | _ => [Widget.text "Story not found"]

end IcebookExample

namespace Icebook

/-- A small concrete registry used to instantiate the generic theorems:
two stories, the second with an upper-case id. -/
def sampleRegistry : StoryRegistry Unit Unit where
  stories :=
    [ { id := "buttons", title := "Buttons", category := "Components" },
      { id := "Colors", title := "Colors", category := "Foundation" } ]
  default := ()
  update := fun s _ _ => s

/-! ## Helper lemmas and claim theorems -/

theorem mapLookup_eq_nil_of_not_mem {m : List (String × List NavItem)}
    {k : String} (h : k ∉ m.map Prod.fst) : mapLookup m k = [] := by
  induction m with
  | nil => rfl
  | cons p rest ih =>
    obtain ⟨k', v⟩ := p
    simp only [List.map_cons, List.mem_cons, not_or] at h
    simp only [mapLookup, if_neg h.1]
    exact ih h.2

theorem mem_keys_btreeInsert {c k : String} {item : NavItem}
    {m : List (String × List NavItem)} :
    k ∈ (btreeInsert c item m).map Prod.fst ↔ k = c ∨ k ∈ m.map Prod.fst := by
  induction m with
  | nil => simp [btreeInsert]
  | cons p rest ih =>
    obtain ⟨k', v⟩ := p
    simp only [btreeInsert]
    by_cases h1 : c < k'
    · rw [if_pos h1]
      simp only [List.map_cons, List.mem_cons]
    · rw [if_neg h1]
      by_cases h2 : c = k'
      · rw [if_pos h2]
        subst h2
        simp only [List.map_cons, List.mem_cons]
        tauto
      · rw [if_neg h2]
        simp only [List.map_cons, List.mem_cons, ih]
        tauto

theorem sorted_btreeInsert {c : String} {item : NavItem}
    {m : List (String × List NavItem)}
    (hs : List.Pairwise (· < ·) (m.map Prod.fst)) :
    List.Pairwise (· < ·) ((btreeInsert c item m).map Prod.fst) := by
  induction m with
  | nil => simp [btreeInsert]
  | cons p rest ih =>
    obtain ⟨k', v⟩ := p
    simp only [List.map_cons, List.pairwise_cons] at hs
    simp only [btreeInsert]
    by_cases h1 : c < k'
    · rw [if_pos h1]
      simp only [List.map_cons, List.pairwise_cons]
      refine ⟨?_, hs.1, hs.2⟩
      intro b hb
      rcases List.mem_cons.mp hb with rfl | hb
      · exact h1
      · exact lt_trans h1 (hs.1 b hb)
    · rw [if_neg h1]
      by_cases h2 : c = k'
      · rw [if_pos h2]
        subst h2
        simp only [List.map_cons, List.pairwise_cons]
        exact hs
      · rw [if_neg h2]
        simp only [List.map_cons, List.pairwise_cons]
        refine ⟨?_, ih hs.2⟩
        intro b hb
        rcases mem_keys_btreeInsert.mp hb with rfl | hb
        · rcases lt_trichotomy b k' with h | h | h
          · exact absurd h h1
          · exact absurd h h2
          · exact h
        · exact hs.1 b hb

theorem mapLookup_btreeInsert {c k : String} {item : NavItem}
    {m : List (String × List NavItem)}
    (hs : List.Pairwise (· < ·) (m.map Prod.fst)) :
    mapLookup (btreeInsert c item m) k =
      if k = c then mapLookup m k ++ [item] else mapLookup m k := by
  induction m with
  | nil =>
    by_cases h : k = c <;> simp [btreeInsert, mapLookup, h]
  | cons p rest ih =>
    obtain ⟨k', v⟩ := p
    simp only [List.map_cons, List.pairwise_cons] at hs
    simp only [btreeInsert]
    by_cases h1 : c < k'
    · rw [if_pos h1]
      by_cases hk : k = c
      · subst hk
        have hknotin : k ∉ ((k', v) :: rest).map Prod.fst := by
          simp only [List.map_cons, List.mem_cons, not_or]
          constructor
          · rintro rfl
            exact absurd h1 (lt_irrefl k)
          · intro hmem
            exact absurd (lt_trans h1 (hs.1 k hmem)) (lt_irrefl k)
        rw [mapLookup_eq_nil_of_not_mem hknotin]
        simp [mapLookup]
      · simp only [mapLookup, if_neg hk]
    · rw [if_neg h1]
      by_cases h2 : c = k'
      · rw [if_pos h2]
        subst h2
        by_cases hk : k = c
        · subst hk
          simp [mapLookup]
        · simp only [mapLookup, if_neg hk]
      · rw [if_neg h2]
        by_cases hk : k = k'
        · subst hk
          have hkc : k ≠ c := fun h => h2 h.symm
          simp [mapLookup, hkc]
        · simp only [mapLookup, if_neg hk]
          exact ih hs.2

theorem mapLookup_of_mem {m : List (String × List NavItem)}
    {t : String} {i : List NavItem}
    (hs : List.Pairwise (· < ·) (m.map Prod.fst)) (hmem : (t, i) ∈ m) :
    mapLookup m t = i := by
  induction m with
  | nil => cases hmem
  | cons p rest ih =>
    obtain ⟨k', v⟩ := p
    simp only [List.map_cons, List.pairwise_cons] at hs
    rcases List.mem_cons.mp hmem with heq | hmem'
    · injection heq with h1 h2
      subst h1
      subst h2
      simp [mapLookup]
    · have ht : t ∈ rest.map Prod.fst :=
        List.mem_map_of_mem Prod.fst hmem'
      have hlt : k' < t := hs.1 t ht
      have hne : t ≠ k' := fun h => absurd (h ▸ hlt) (lt_irrefl k')
      simp only [mapLookup, if_neg hne]
      exact ih hs.2 hmem'

/-- Invariant of the grouping fold in `build_sidebar_config`: starting from a
key-sorted map `m`, folding the stories keeps the keys sorted, appends to
each key exactly the nav items of the stories in that category (in input
order), and the final key set is the initial one plus the input
categories. -/
theorem foldGroup_spec (stories : List StoryMeta)
    (m : List (String × List NavItem))
    (hs : List.Pairwise (· < ·) (m.map Prod.fst)) :
    List.Pairwise (· < ·)
      ((stories.foldl (fun m story =>
          btreeInsert story.category (navOf story) m) m).map Prod.fst) ∧
    (∀ k, mapLookup (stories.foldl (fun m story =>
            btreeInsert story.category (navOf story) m) m) k =
          mapLookup m k ++
            (stories.filter (fun s => s.category == k)).map navOf) ∧
    (∀ k, k ∈ (stories.foldl (fun m story =>
            btreeInsert story.category (navOf story) m) m).map Prod.fst ↔
          k ∈ m.map Prod.fst ∨ k ∈ stories.map (fun s => s.category)) := by
  induction stories generalizing m with
  | nil => exact ⟨hs, fun k => by simp, fun k => by simp⟩
  | cons story rest ih =>
    have hs' := @sorted_btreeInsert story.category (navOf story) m hs
    obtain ⟨ihs, ihl, ihk⟩ := ih (btreeInsert story.category (navOf story) m) hs'
    refine ⟨by simpa using ihs, ?_, ?_⟩
    · intro k
      have hins := @mapLookup_btreeInsert story.category k (navOf story) m hs
      simp only [List.foldl_cons] at *
      rw [ihl k, hins]
      by_cases hk : story.category = k
      · subst hk
        simp [List.filter_cons]
      · have : k ≠ story.category := fun h => hk h.symm
        simp [List.filter_cons, this, beq_eq_false_iff_ne.mpr hk]
    · intro k
      simp only [List.foldl_cons, List.map_cons, List.mem_cons] at *
      rw [ihk k, mem_keys_btreeInsert]
      tauto

/-- **C1.** For every list of `StoryMeta` and every title,
`build_sidebar_config` produces a `SidebarConfig` whose sections partition
the stories by their category string (a category appears as a section
exactly when some story carries it, and each section's items are exactly
the nav items of the stories of that category), whose sections are ordered
lexicographically by category name, and within each section the `NavItem`s
(id, title projections) appear in the original registration order of the
input list. -/
theorem build_sidebar_config_groups_sorts_and_preserves_order
    (title : String) (stories : List StoryMeta) :
    (build_sidebar_config title stories).title = title ∧
    List.Pairwise (fun a b => a.title < b.title)
      (build_sidebar_config title stories).sections ∧
    (∀ sec ∈ (build_sidebar_config title stories).sections,
        sec.items =
          (stories.filter (fun s => s.category == sec.title)).map navOf) ∧
    (∀ c, (∃ sec ∈ (build_sidebar_config title stories).sections,
              sec.title = c) ↔
          c ∈ stories.map (fun s => s.category)) := by
  obtain ⟨hsorted, hlookup, hkeys⟩ :=
    foldGroup_spec stories [] (by simp)
  set categories :=
    stories.foldl (fun m story => btreeInsert story.category (navOf story) m) []
    with hcat
  refine ⟨rfl, ?_, ?_, ?_⟩
  · show List.Pairwise (fun a b => a.title < b.title)
      (categories.map (fun p => ({ title := p.1, items := p.2 } : SidebarSection)))
    rw [List.pairwise_map]
    rw [List.pairwise_map] at hsorted
    exact hsorted
  · intro sec hsec
    show sec.items = _
    simp only [build_sidebar_config, List.mem_map] at hsec
    obtain ⟨p, hp, rfl⟩ := hsec
    have hl := mapLookup_of_mem hsorted (by simpa using hp)
    have := hlookup p.1
    simp only [mapLookup] at this
    rw [hl] at this
    simpa using this
  · intro c
    constructor
    · rintro ⟨sec, hsec, rfl⟩
      simp only [build_sidebar_config, List.mem_map] at hsec
      obtain ⟨p, hp, rfl⟩ := hsec
      have : p.1 ∈ categories.map Prod.fst := List.mem_map_of_mem Prod.fst hp
      have := (hkeys p.1).mp this
      simpa using this
    · intro hc
      have : c ∈ categories.map Prod.fst := by
        rw [hkeys c]
        simpa using hc
      simp only [List.mem_map] at this
      obtain ⟨p, hp, rfl⟩ := this
      exact ⟨{ title := p.1, items := p.2 },
        List.mem_map_of_mem _ hp, rfl⟩


/-- **C9.** For every `Brightness` value `b`, `toggle (toggle b) = b`
(toggling brightness twice returns the original brightness), and `toggle`
is the simple negation mapping Dark to Light and Light to Dark. -/
theorem brightness_toggle_involution :
    (∀ b : Brightness, b.toggle.toggle = b) ∧
    Brightness.Dark.toggle = Brightness.Light ∧
    Brightness.Light.toggle = Brightness.Dark := by
  refine ⟨fun b => ?_, rfl, rfl⟩
  cases b <;> rfl

/-- **C4.** For every shell state and every message, the shell's update
changes only the fields the transition table designates: `Story(inner)` is
forwarded to `registry.update(selected, inner)` and changes no shell-level
field; `ToggleBrightness` changes only brightness and preferences;
`SelectStory(id)` changes only `selected`; `SearchChanged(text)` changes
only the search query.  In particular, `SelectStory` followed by
`ToggleBrightness` leaves `selected` at the chosen id and flips only
brightness. -/
theorem update_frame_conditions {σ μ : Type} (R : StoryRegistry σ μ)
    (st : Storybook σ) (m : μ) (id q : String) :
    ((Storybook.update R st (.Story m)).1.stories =
        R.update st.stories st.selected m ∧
      (Storybook.update R st (.Story m)).1.selected = st.selected ∧
      (Storybook.update R st (.Story m)).1.brightness = st.brightness ∧
      (Storybook.update R st (.Story m)).1.preferences = st.preferences ∧
      (Storybook.update R st (.Story m)).1.sidebar_config =
        st.sidebar_config ∧
      (Storybook.update R st (.Story m)).1.search_query = st.search_query) ∧
    ((Storybook.update R st .ToggleBrightness).1.brightness =
        st.brightness.toggle ∧
      (Storybook.update R st .ToggleBrightness).1.preferences =
        st.preferences.set_brightness st.brightness.toggle ∧
      (Storybook.update R st .ToggleBrightness).1.stories = st.stories ∧
      (Storybook.update R st .ToggleBrightness).1.selected = st.selected ∧
      (Storybook.update R st .ToggleBrightness).1.sidebar_config =
        st.sidebar_config ∧
      (Storybook.update R st .ToggleBrightness).1.search_query =
        st.search_query) ∧
    ((Storybook.update R st (.SelectStory id)).1.selected = id ∧
      (Storybook.update R st (.SelectStory id)).1.stories = st.stories ∧
      (Storybook.update R st (.SelectStory id)).1.brightness =
        st.brightness ∧
      (Storybook.update R st (.SelectStory id)).1.preferences =
        st.preferences ∧
      (Storybook.update R st (.SelectStory id)).1.sidebar_config =
        st.sidebar_config ∧
      (Storybook.update R st (.SelectStory id)).1.search_query =
        st.search_query) ∧
    ((Storybook.update R st (.SearchChanged q)).1.search_query = q ∧
      (Storybook.update R st (.SearchChanged q)).1.stories = st.stories ∧
      (Storybook.update R st (.SearchChanged q)).1.selected = st.selected ∧
      (Storybook.update R st (.SearchChanged q)).1.brightness =
        st.brightness ∧
      (Storybook.update R st (.SearchChanged q)).1.preferences =
        st.preferences ∧
      (Storybook.update R st (.SearchChanged q)).1.sidebar_config =
        st.sidebar_config) ∧
    ((Storybook.update R
        (Storybook.update R st (.SelectStory id)).1 .ToggleBrightness).1.selected
        = id ∧
      (Storybook.update R
        (Storybook.update R st (.SelectStory id)).1 .ToggleBrightness).1.brightness
        = st.brightness.toggle ∧
      (Storybook.update R
        (Storybook.update R st (.SelectStory id)).1 .ToggleBrightness).1.stories
        = st.stories ∧
      (Storybook.update R
        (Storybook.update R st (.SelectStory id)).1 .ToggleBrightness).1.sidebar_config
        = st.sidebar_config ∧
      (Storybook.update R
        (Storybook.update R st (.SelectStory id)).1 .ToggleBrightness).1.search_query
        = st.search_query) :=
  ⟨⟨rfl, rfl, rfl, rfl, rfl, rfl⟩,
    ⟨rfl, rfl, rfl, rfl, rfl, rfl⟩,
    ⟨rfl, rfl, rfl, rfl, rfl, rfl⟩,
    ⟨rfl, rfl, rfl, rfl, rfl, rfl⟩,
    ⟨rfl, rfl, rfl, rfl, rfl⟩⟩

theorem run_brightness_eq_preferences {σ μ : Type} (R : StoryRegistry σ μ)
    (msgs : List (Message μ)) (st : Storybook σ)
    (h : st.brightness = st.preferences.brightness) :
    (Storybook.run R st msgs).brightness =
      (Storybook.run R st msgs).preferences.brightness := by
  induction msgs generalizing st with
  | nil => exact h
  | cons msg rest ih =>
    refine ih _ ?_
    cases msg with
    | Story m => exact h
    | ToggleBrightness => rfl
    | SelectStory id => exact h
    | SearchChanged q => exact h

/-- **C10.** In every shell state reachable from the initial state by any
sequence of update messages, the shell's brightness field equals the
brightness stored in its preferences field: construction initializes
brightness from the loaded preferences, and `ToggleBrightness` writes the
flipped value into both in the same step. -/
theorem reachable_brightness_matches_preferences {σ μ : Type}
    (R : StoryRegistry σ μ) (loaded : Preferences) (rawHash : Option String)
    (msgs : List (Message μ)) :
    (Storybook.run R (Storybook.new R loaded rawHash).1 msgs).brightness =
      (Storybook.run R (Storybook.new R loaded rawHash).1
        msgs).preferences.brightness :=
  run_brightness_eq_preferences R msgs _ rfl


/-- **C2 (counterexample).** The initial-selection match is not
case-insensitive: with registered ids `["buttons", "Colors"]` and the page
fragment `#/Colors`, the route names the registered story `"Colors"` up to
case (the route read is lower-cased to `"colors"`), yet the shell's initial
selection falls back to the first story `"buttons"` instead of `"Colors"`
(or of the route id), because the lower-cased route is compared *exactly*
against the stored ids. -/
theorem initial_selection_not_case_insensitive :
    get_initial_route "#/Colors" = some "colors" ∧
    (sampleRegistry.stories.any fun s =>
        s.id.data.map Char.toLower == "colors".data) = true ∧
    (Storybook.new sampleRegistry { brightness := .Dark }
        (some "#/Colors")).1.selected = "buttons" ∧
    ("buttons" : String) ≠ "Colors" ∧ ("buttons" : String) ≠ "colors" := by
  refine ⟨by decide, by decide, by decide, by decide, by decide⟩

/-- **C2 (amended).** For every registered story list and every initial
route value, the shell's initial selected id at construction equals the
route id — the fragment with leading `#`/`/` stripped and lower-cased —
when that lower-cased string exactly equals a registered story's id (so the
match is case-insensitive on the route side only: ids stored with upper
case are never matched); otherwise the first registered story's id;
otherwise the empty string; and the route is then written back to the
resolved selection. -/
theorem initial_selection_resolution {σ μ : Type} (R : StoryRegistry σ μ)
    (loaded : Preferences) (rawHash : Option String) :
    (Storybook.new R loaded rawHash).2 =
      (Storybook.new R loaded rawHash).1.selected ∧
    (match rawHash.bind get_initial_route with
      | some id =>
          if (R.stories.any fun s => s.id == id) then
            (Storybook.new R loaded rawHash).1.selected = id
          else
            (Storybook.new R loaded rawHash).1.selected =
              ((R.stories.head?.map fun s => s.id).getD "")
      | none =>
          (Storybook.new R loaded rawHash).1.selected =
            ((R.stories.head?.map fun s => s.id).getD "")) := by
  refine ⟨rfl, ?_⟩
  show (match rawHash.bind get_initial_route with
    | some id =>
        if (R.stories.any fun s => s.id == id) then
          resolveSelected (rawHash.bind get_initial_route) R.stories = id
        else
          resolveSelected (rawHash.bind get_initial_route) R.stories =
            ((R.stories.head?.map fun s => s.id).getD "")
    | none =>
        resolveSelected (rawHash.bind get_initial_route) R.stories =
          ((R.stories.head?.map fun s => s.id).getD "") : Prop)
  cases hroute : rawHash.bind get_initial_route with
  | none =>
      simp only [resolveSelected, hroute, Option.filter, Option.or]
  | some id =>
      by_cases hany : (R.stories.any fun s => s.id == id) = true
      · simp only [resolveSelected, hroute, Option.filter, hany, if_pos,
          Option.or, Option.getD, hany, if_true]
      · have hany' : (R.stories.any fun s => s.id == id) = false :=
          Bool.eq_false_iff.mpr hany
        simp only [resolveSelected, hroute, Option.filter, hany',
          Bool.false_eq_true, if_false, Option.or, hany]

/-- **C6 (counterexample).** The fragment written for the non-empty story
id `"welcome"` is empty, so the empty fragment is *not* written exactly
when the id is empty. -/
theorem route_fragment_welcome_counterexample :
    set_url_hash_fragment "welcome" = "" ∧ ("welcome" : String) ≠ "" := by
  exact ⟨by decide, by decide⟩

/-- **C6 (amended).** When the selection changes the shell passes the new
id to the route writer; the fragment written has the format `#/<story-id>`
when the id is non-empty and not the reserved welcome id `"welcome"`, and
is the empty fragment exactly when the id is empty or is `"welcome"`.
(The write uses `history.replaceState`, which adds no history entry; the
browser call itself is outside the embedding.) -/
theorem route_fragment_format {σ μ : Type} (R : StoryRegistry σ μ)
    (st : Storybook σ) (id : String) :
    (Storybook.update R st (.SelectStory id)).2 = some id ∧
    (¬(id = "" ∨ id = "welcome") →
      set_url_hash_fragment id = "#/" ++ id) ∧
    (set_url_hash_fragment id = "" ↔ (id = "" ∨ id = "welcome")) := by
  refine ⟨rfl, ?_, ?_⟩
  · intro h
    simp only [set_url_hash_fragment, if_neg h]
  · constructor
    · intro h
      by_contra hc
      rw [set_url_hash_fragment, if_neg hc] at h
      have hlen := congrArg String.length h
      rw [String.length_append] at hlen
      have h2 : ("#/" : String).length = 2 := rfl
      have h0 : ("" : String).length = 0 := rfl
      omega
    · intro h
      simp only [set_url_hash_fragment, if_pos h]

/-- Closed instance of the C6 amended theorem at a concrete id, with its
hypothesis discharged by computation. -/
theorem route_fragment_format_witness :
    set_url_hash_fragment "buttons" = "#/" ++ "buttons" :=
  (route_fragment_format sampleRegistry
      (Storybook.new sampleRegistry { brightness := .Dark } none).1
      "buttons").2.1 (by decide)


theorem resolveSelected_ok (route : Option String) (l : List StoryMeta) :
    resolveSelected route l = "" ∨
      (l.any fun s => s.id == resolveSelected route l) = true := by
  unfold resolveSelected
  cases hf : route.filter (fun id => l.any fun s => s.id == id) with
  | some id =>
      right
      have hp := (Option.filter_eq_some.mp hf).2
      simpa [Option.or] using hp
  | none =>
      cases hh : l.head? with
      | none => left; simp [Option.or]
      | some s =>
          right
          have hs : s ∈ l := List.mem_of_mem_head? (by simp [hh])
          simp only [Option.or, hh, Option.map_some, Option.getD_some]
          exact List.any_eq_true.mpr ⟨s, hs, by simp⟩

theorem update_preserves_selectedOk {σ μ : Type} (R : StoryRegistry σ μ)
    (st : Storybook σ) (msg : Message μ)
    (hmsg : selectOk R.stories msg = true)
    (h : st.selected = "" ∨ (R.stories.any fun s => s.id == st.selected) = true) :
    (Storybook.update R st msg).1.selected = "" ∨
      (R.stories.any fun s =>
        s.id == (Storybook.update R st msg).1.selected) = true := by
  cases msg with
  | Story m => exact h
  | ToggleBrightness => exact h
  | SearchChanged q => exact h
  | SelectStory id =>
      simp only [selectOk, Bool.or_eq_true, beq_iff_eq] at hmsg
      show id = "" ∨ (R.stories.any fun s => s.id == id) = true
      exact hmsg

theorem update_preserves_sidebar_config {σ μ : Type} (R : StoryRegistry σ μ)
    (st : Storybook σ) (msg : Message μ) :
    (Storybook.update R st msg).1.sidebar_config = st.sidebar_config := by
  cases msg <;> rfl

theorem run_preserves_invariant {σ μ : Type} (R : StoryRegistry σ μ)
    (msgs : List (Message μ)) (st : Storybook σ)
    (hok : ∀ m ∈ msgs, selectOk R.stories m = true)
    (h : st.selected = "" ∨ (R.stories.any fun s => s.id == st.selected) = true) :
    ((Storybook.run R st msgs).selected = "" ∨
      (R.stories.any fun s =>
        s.id == (Storybook.run R st msgs).selected) = true) ∧
    (Storybook.run R st msgs).sidebar_config = st.sidebar_config := by
  induction msgs generalizing st with
  | nil => exact ⟨h, rfl⟩
  | cons msg rest ih =>
      have hmsg := hok msg (List.mem_cons_self msg rest)
      have hok' : ∀ m ∈ rest, selectOk R.stories m = true :=
        fun m hm => hok m (List.mem_cons_of_mem msg hm)
      obtain ⟨h1, h2⟩ := ih (Storybook.update R st msg).1 hok'
        (update_preserves_selectedOk R st msg hmsg h)
      exact ⟨h1, h2.trans (update_preserves_sidebar_config R st msg)⟩

/-- **C5 (counterexample).** The invariant does not survive arbitrary
update messages: `SelectStory("bogus")` stores an unregistered, non-empty
id into `selected`, because the `SelectStory` arm performs no validation. -/
theorem selected_invariant_counterexample :
    ¬((Storybook.run sampleRegistry
          (Storybook.new sampleRegistry { brightness := .Dark } none).1
          [Message.SelectStory "bogus"]).selected = "" ∨
      (sampleRegistry.stories.any fun s =>
        s.id == (Storybook.run sampleRegistry
          (Storybook.new sampleRegistry { brightness := .Dark } none).1
          [Message.SelectStory "bogus"]).selected) = true) := by
  decide

/-- **C5 (amended).** In every shell state reachable from the initial
state by a sequence of update messages whose `SelectStory` payloads are
each either empty or a registered story's id (the only `SelectStory`
messages the built-in sidebar emits), the `selected` field is either the
empty string or the id of some registered story, and the sidebar config
equals the pure derivation `build_sidebar_config(title, stories())` of the
registered story list.  (Unrestricted messages break the `selected` half:
see the counterexample.) -/
theorem reachable_selected_registered_and_sidebar_config {σ μ : Type}
    (R : StoryRegistry σ μ) (loaded : Preferences) (rawHash : Option String)
    (msgs : List (Message μ))
    (hok : ∀ m ∈ msgs, selectOk R.stories m = true) :
    ((Storybook.run R (Storybook.new R loaded rawHash).1 msgs).selected = ""
        ∨ (R.stories.any fun s =>
            s.id == (Storybook.run R (Storybook.new R loaded rawHash).1
              msgs).selected) = true) ∧
    (Storybook.run R (Storybook.new R loaded rawHash).1
        msgs).sidebar_config = build_sidebar_config R.title R.stories := by
  have h0 : (Storybook.new R loaded rawHash).1.selected = "" ∨
      (R.stories.any fun s =>
        s.id == (Storybook.new R loaded rawHash).1.selected) = true :=
    resolveSelected_ok (rawHash.bind get_initial_route) R.stories
  obtain ⟨h1, h2⟩ := run_preserves_invariant R msgs
    (Storybook.new R loaded rawHash).1 hok h0
  exact ⟨h1, h2⟩

/-- Closed instance of the C5 amended theorem on the sample registry with
a message sequence containing each message kind, hypotheses discharged by
computation. -/
theorem reachable_selected_registered_witness :
    ((Storybook.run sampleRegistry
        (Storybook.new sampleRegistry { brightness := .Dark } none).1
        [Message.SelectStory "Colors", Message.ToggleBrightness,
          Message.SearchChanged "col", Message.Story ()]).selected = ""
      ∨ (sampleRegistry.stories.any fun s =>
          s.id == (Storybook.run sampleRegistry
            (Storybook.new sampleRegistry { brightness := .Dark } none).1
            [Message.SelectStory "Colors", Message.ToggleBrightness,
              Message.SearchChanged "col", Message.Story ()]).selected)
          = true) ∧
    (Storybook.run sampleRegistry
        (Storybook.new sampleRegistry { brightness := .Dark } none).1
        [Message.SelectStory "Colors", Message.ToggleBrightness,
          Message.SearchChanged "col", Message.Story ()]).sidebar_config =
      build_sidebar_config sampleRegistry.title sampleRegistry.stories :=
  reachable_selected_registered_and_sidebar_config sampleRegistry
    { brightness := .Dark } none
    [Message.SelectStory "Colors", Message.ToggleBrightness,
      Message.SearchChanged "col", Message.Story ()]
    (by decide)


end Icebook

namespace IcebookExample

open Icebook

/-- **C3.** For every registry state, every `story_id`, and every message:
calling the example registry's `update` with a `story_id` that matches no
registered story, or with a message tagged for a different story than
`story_id`, leaves every story's state unchanged (the whole registry value
is returned untouched); `update` is total, so no error is raised. -/
theorem update_unmatched_is_noop (st : ExampleStories) (story_id : String)
    (msg : ExampleMessage)
    (h : (∀ s ∈ ExampleStories.stories, s.id ≠ story_id) ∨
      msg.tag ≠ story_id) :
    ExampleStories.update st story_id msg = st := by
  have hid : msg.tag ≠ story_id := by
    rcases h with hall | htag
    · have hb := hall ButtonStory.meta (by simp [ExampleStories.stories])
      have hi := hall InputStory.meta (by simp [ExampleStories.stories])
      have ht := hall TypographyStory.meta (by simp [ExampleStories.stories])
      have hc := hall ColorsStory.meta (by simp [ExampleStories.stories])
      cases msg with
      | Button m =>
          simpa [ExampleMessage.tag, ButtonStory.meta] using hb
      | Input m =>
          simpa [ExampleMessage.tag, InputStory.meta] using hi
      | Typography m =>
          simpa [ExampleMessage.tag, TypographyStory.meta] using ht
      | Colors m =>
          simpa [ExampleMessage.tag, ColorsStory.meta] using hc
    · exact htag
  unfold ExampleStories.update
  split
  · simp [ExampleMessage.tag] at hid
  · simp [ExampleMessage.tag] at hid
  · simp [ExampleMessage.tag] at hid
  · simp [ExampleMessage.tag] at hid
  · rfl

/-- Closed instance of the C3 theorem: updating with an unregistered id
and a buttons-tagged message changes nothing, hypothesis discharged by
computation. -/
theorem update_unmatched_is_noop_witness :
    ExampleStories.update ExampleStories.default "missing-id"
      (.Button .Clicked) = ExampleStories.default :=
  update_unmatched_is_noop ExampleStories.default "missing-id"
    (.Button .Clicked) (Or.inl (by decide))

/-- **C8.** For every registry state, every theme, and every `story_id`
that matches no registered story, the example registry's `view` returns
the non-empty `"Story not found"` placeholder rendering rather than
failing (the function is total). -/
theorem view_unmatched_not_found (st : ExampleStories)
    (theme : SimpleTheme) (story_id : String)
    (h : ∀ s ∈ ExampleStories.stories, s.id ≠ story_id) :
    ExampleStories.view st story_id theme =
      [Widget.text "Story not found"] ∧
    ExampleStories.view st story_id theme ≠ [] := by
  have hb : story_id ≠ "buttons" := fun hc =>
    (h ButtonStory.meta (by simp [ExampleStories.stories])) (by
      simpa [ButtonStory.meta] using hc.symm)
  have hi : story_id ≠ "inputs" := fun hc =>
    (h InputStory.meta (by simp [ExampleStories.stories])) (by
      simpa [InputStory.meta] using hc.symm)
  have ht : story_id ≠ "typography" := fun hc =>
    (h TypographyStory.meta (by simp [ExampleStories.stories])) (by
      simpa [TypographyStory.meta] using hc.symm)
  have hc : story_id ≠ "colors" := fun hcc =>
    (h ColorsStory.meta (by simp [ExampleStories.stories])) (by
      simpa [ColorsStory.meta] using hcc.symm)
  have hview : ExampleStories.view st story_id theme =
      [Widget.text "Story not found"] := by
    unfold ExampleStories.view
    split
    · exact absurd rfl hb
    · exact absurd rfl hi
    · exact absurd rfl ht
    · exact absurd rfl hc
    · rfl
  exact ⟨hview, by rw [hview]; simp⟩

/-- Closed instance of the C8 theorem at the unregistered id
`"missing-id"`, hypothesis discharged by computation. -/
theorem view_unmatched_not_found_witness :
    ExampleStories.view ExampleStories.default "missing-id"
        { background := {}, text := {}, primary := {} } =
      [Widget.text "Story not found"] ∧
    ExampleStories.view ExampleStories.default "missing-id"
        { background := {}, text := {}, primary := {} } ≠ [] :=
  view_unmatched_not_found ExampleStories.default
    { background := {}, text := {}, primary := {} } "missing-id" (by decide)

end IcebookExample

namespace Icebook

theorem emits_append {μ : Type} (a b : List (Widget μ)) :
    emits (a ++ b) = emits a ++ emits b := by
  induction a with
  | nil => rfl
  | cons w rest ih => cases w <;> simp [emits, ih]

theorem emits_navItems (selected : String) (items : List NavItem) :
    emits (items.map fun it => nav_item it.id it.label selected) =
      items.map fun it => SidebarMessage.SelectStory it.id := by
  induction items with
  | nil => rfl
  | cons it rest ih =>
      show SidebarMessage.SelectStory it.id ::
          emits (rest.map fun it => nav_item it.id it.label selected) =
        SidebarMessage.SelectStory it.id ::
          rest.map fun it => SidebarMessage.SelectStory it.id
      rw [ih]

theorem emits_sectionsWidgets (selected : String) (l : List SidebarSection)
    (i : Nat) :
    emits (sectionsWidgets selected l i) =
      l.flatMap (fun sec =>
        sec.items.map fun it => SidebarMessage.SelectStory it.id) := by
  induction l generalizing i with
  | nil => rfl
  | cons sec rest ih =>
      simp only [sectionsWidgets, emits_append, ih, List.flatMap_cons]
      have hsp : @emits SidebarMessage
          (if i > 0 then [Widget.space] else []) = [] := by
        by_cases hi : i > 0 <;> simp [hi, emits]
      rw [hsp]
      simp [section_header, emits, emits_navItems]

theorem no_input_sectionsWidgets (selected : String)
    (l : List SidebarSection) (i : Nat) :
    (sectionsWidgets selected l i).all (fun w => !isInput w) = true := by
  induction l generalizing i with
  | nil => rfl
  | cons sec rest ih =>
      simp only [sectionsWidgets, List.all_append, Bool.and_eq_true]
      refine ⟨⟨?_, ?_⟩, ih _⟩
      · by_cases hi : i > 0 <;> simp [hi, isInput]
      · simp only [List.all_cons, List.all_map, Bool.and_eq_true]
        refine ⟨by simp [section_header, isInput], ?_⟩
        rw [List.all_eq_true]
        intro it hit
        rcases List.mem_map.mp hit with ⟨n, hn, rfl⟩
        simp [nav_item, isInput]

/-- **C7 (code as shipped).** In `sidebar.rs` as it stands, the sidebar
message type consists of exactly the two constructors `ToggleBrightness`
and `SelectStory(id)` — there is no `SearchChanged` constructor — and the
built-in sidebar render function's pressable interactions emit exactly one
`ToggleBrightness` (the toggle button) and one `SelectStory(item.id)` per
nav item in stored order; it renders no text input.  This contradicts
`app.rs`, which calls `sidebar` with a search-query argument and matches a
`SidebarMessage::SearchChanged` variant (and the spec, which lists three
constructors), so the crate as shipped cannot compile; `sidebar.rs` is the
stale slip. -/
theorem sidebar_emits_exactly_toggle_and_select (config : SidebarConfig)
    (selected : String) :
    (∀ m : SidebarMessage,
        m = SidebarMessage.ToggleBrightness ∨
        ∃ id, m = SidebarMessage.SelectStory id) ∧
    emits (sidebar config selected) =
      SidebarMessage.ToggleBrightness ::
        config.sections.flatMap (fun sec =>
          sec.items.map fun it => SidebarMessage.SelectStory it.id) ∧
    (sidebar config selected).all (fun w => !isInput w) = true := by
  refine ⟨?_, ?_, ?_⟩
  · intro m
    cases m with
    | ToggleBrightness => exact Or.inl rfl
    | SelectStory id => exact Or.inr ⟨id, rfl⟩
  · simp only [sidebar]
    rw [emits_append, emits_sectionsWidgets]
    rfl
  · simp only [sidebar, List.all_append, Bool.and_eq_true]
    exact ⟨by simp [isInput], no_input_sectionsWidgets selected config.sections 0⟩

end Icebook
